import Mathlib

/-!
Shallow embedding of the restaurant ordering backend (`src/main.py`,
`src/schemas.py`) and verification of its specification.

Modelling conventions:
* Python floats holding monetary values are modelled as exact rationals (`ℚ`);
  decimal literals in the source (`0.08`, `11.99`, ...) become the
  corresponding exact rationals.  `round(x, 2)` becomes `round2`, rounding
  half-to-even like the Python builtin `round`.
* MongoDB ObjectIds are modelled as their canonical 24-hex-character string
  form; `ObjectId(s)` succeeds exactly when `s` is 24 hex characters, and
  `str(ObjectId(s))` lower-cases the input (`canonicalId`).
* The document store is a pair of lists (`menuitem` and `order` collections)
  kept in insertion order; store-assigned `_id`s grow monotonically, so
  `find().sort("_id", -1)` is the reverse of the insertion order.
* Menu documents are arbitrary untyped inserts (`add_menu_item` takes a plain
  dict), so every field a handler reads through `.get` is an `Option`.
* Each store call made by `create_order` is recorded in an operation trace
  (`StoreOp`) so that claims about "no read / no write happened" are statable.
-/

namespace Restaurant

/-- Character is a hexadecimal digit (0-9, a-f, A-F). -/
def isHexChar (c : Char) : Bool :=
  c.isDigit || (decide (97 ≤ c.toNat) && decide (c.toNat ≤ 102))
    || (decide (65 ≤ c.toNat) && decide (c.toNat ≤ 70))

/-- Embedding of `ObjectId(s)` validity: bson accepts exactly a
24-hex-character string (`main.py` line 129 raises otherwise). -/
def isValidObjectId (s : String) : Bool :=
  s.length == 24 && s.data.all isHexChar

/-- Lower-case an ASCII character (the only characters a valid ObjectId
string can contain). -/
def lowerChar (c : Char) : Char :=
  if 65 ≤ c.toNat ∧ c.toNat ≤ 90 then Char.ofNat (c.toNat + 32) else c

/-- Embedding of `str(ObjectId(s))`: the canonical (lower-case) form of a
24-hex-character identifier. -/
def canonicalId (s : String) : String := String.mk (s.data.map lowerChar)

/-- Floor of a rational as an integer (numerator floor-divided by
denominator). -/
def qfloor (q : ℚ) : ℤ := Int.fdiv q.num (Int.ofNat q.den)

/-- Round a rational to the nearest integer, ties to even — the semantics of
the Python builtin `round`. -/
def roundHalfEven (q : ℚ) : ℤ :=
  let n := qfloor q
  let frac := q - (n : ℚ)
  if frac < 1/2 then n
  else if 1/2 < frac then n + 1
  else if n % 2 = 0 then n else n + 1

/-- Embedding of Python `round(x, 2)` on monetary values. -/
def round2 (q : ℚ) : ℚ := (roundHalfEven (q * 100) : ℚ) / 100

/-- The fixed 8% tax rate (`main.py` line 158, literal `0.08`). -/
def taxRate : ℚ := 0.08

/-- A document of the `menuitem` collection.  `add_menu_item` inserts
arbitrary dicts, so every field read via `.get` is optional; `id` is the
store-assigned `_id` in canonical string form. -/
structure MenuDoc where
  id : String
  name : Option String := none
  price : Option ℚ := none
  category : Option String := none
  available : Option Bool := none
deriving DecidableEq

/-- A denormalized line item as persisted inside an order document
(`main.py` lines 150-156). -/
structure LineItem where
  item_id : String
  name : Option String
  price : ℚ
  quantity : Int
  line_total : ℚ
deriving DecidableEq

/-- The order document persisted by `create_order` (`main.py` lines
161-170).  Note the dict literal in the source has no `notes` key. -/
structure OrderDoc where
  customer_name : String
  customer_email : String
  customer_address : String
  items : List LineItem
  subtotal : ℚ
  tax : ℚ
  total : ℚ
  status : String
deriving DecidableEq

/-- Request line item as validated by the Pydantic model `OrderItem` in
`main.py` lines 25-27: an id string and an unconstrained integer quantity. -/
structure OrderItem where
  item_id : String
  quantity : Int
deriving DecidableEq

/-- Quantity constraint declared by `schemas.py` `OrderItem`
(`quantity: int = Field(..., ge=1)`). -/
def schemasQuantityValid (oi : OrderItem) : Bool := decide (1 ≤ oi.quantity)

/-- Request body validated by the Pydantic model `CreateOrder`
(`main.py` lines 29-34). -/
structure CreateOrder where
  customer_name : String
  customer_email : String
  customer_address : String
  items : List OrderItem
  notes : Option String := none
deriving DecidableEq

/-- The document store: the `menuitem` and `order` collections, each in
insertion order. -/
structure DB where
  menuitems : List MenuDoc
  orders : List OrderDoc
deriving DecidableEq

/-- Client errors raised by `create_order` (each is an HTTP 400 with the
given detail string in the source). -/
inductive ApiError where
  /-- detail "Invalid item id format" (line 131) -/
  | invalidItemIdFormat
  /-- detail "One or more items not found" (line 137) -/
  | itemsNotFound
  /-- detail "Invalid item id" (line 146) -/
  | invalidItemId
deriving DecidableEq

/-- One call to the document store made during `create_order`. -/
inductive StoreOp where
  /-- the batch `find` on `menuitem` (line 133) -/
  | findMenu
  /-- a per-item fallback `find_one` on `menuitem` (line 144) -/
  | findOneMenu
  /-- the `insert_one` into `order` (line 172) -/
  | insertOrder
  /-- the re-read `find_one` on `order` (line 173) -/
  | findOneOrder
deriving DecidableEq

/-- Result of running `create_order`: the HTTP outcome, the store state
afterwards, and the trace of store calls made. -/
structure OrderResult where
  result : Except ApiError OrderDoc
  db : DB
  ops : List StoreOp

/-- The parsed identifiers `menu_ids` (line 129): each request id in
canonical ObjectId form. -/
def requestMenuIds (order : CreateOrder) : List String :=
  order.items.map (fun oi => canonicalId oi.item_id)

/-- The batch lookup `db["menuitem"].find({"_id": {"$in": menu_ids}})`
(line 133): every menu document whose id occurs among the parsed ids. -/
def resolvedMenuDocs (db : DB) (order : CreateOrder) : List MenuDoc :=
  db.menuitems.filter (fun d => (requestMenuIds order).contains d.id)

/-- Size of the Python dict `menu_docs = {str(d["_id"]): d for d in cursor}`
(line 134): the number of distinct ids among the resolved documents. -/
def distinctResolvedCount (db : DB) (order : CreateOrder) : Nat :=
  ((resolvedMenuDocs db order).map (fun d => d.id)).dedup.length

/-- Per-item document resolution in the pricing loop (lines 142-144): first
`menu_docs.get(oi.item_id)` (dict lookup keyed by canonical id string, last
insertion wins), then the fallback `find_one({"_id": ObjectId(oi.item_id)})`,
which is one extra store read. -/
def resolveDoc (db : DB) (dict : List MenuDoc) (oi : OrderItem) :
    Option MenuDoc × List StoreOp :=
  match dict.reverse.find? (fun d => d.id == oi.item_id) with
  | some d => (some d, [])
  | none =>
    (db.menuitems.find? (fun d => d.id == canonicalId oi.item_id),
     [StoreOp.findOneMenu])

/-- One iteration of the pricing loop body (lines 147-156): price defaults
to 0 when the document has no `price` key, the accumulated line total is the
unrounded product, and the persisted `line_total` is rounded to 2 places. -/
def mkLineItem (doc : MenuDoc) (oi : OrderItem) : LineItem × ℚ :=
  let price := doc.price.getD 0
  let lineTotal := price * (oi.quantity : ℚ)
  ({ item_id := oi.item_id, name := doc.name, price := price,
     quantity := oi.quantity, line_total := round2 lineTotal }, lineTotal)

/-- The pricing loop (lines 139-156): walks the requested items in order,
resolving each document, building the persisted line items and accumulating
the unrounded subtotal; stops at the first unresolvable item. -/
def processItems (db : DB) (dict : List MenuDoc) :
    List OrderItem → Option (List LineItem × ℚ) × List StoreOp
  | [] => (some ([], 0), [])
  | oi :: rest =>
    match resolveDoc db dict oi with
    | (none, ops1) => (none, ops1)
    | (some doc, ops1) =>
      match processItems db dict rest with
      | (none, ops2) => (none, ops1 ++ ops2)
      | (some (lis, sub), ops2) =>
        (some ((mkLineItem doc oi).1 :: lis, (mkLineItem doc oi).2 + sub),
         ops1 ++ ops2)

/-- Embedding of `create_order` (`main.py` lines 122-174): parse all ids
(failure writes and reads nothing), batch-resolve, compare the dict size
against the number of requested line items, run the pricing loop, round the
aggregates, and persist a single order document with status "pending". -/
def createOrder (db : DB) (order : CreateOrder) : OrderResult :=
  if order.items.all (fun oi => isValidObjectId oi.item_id) then
    if distinctResolvedCount db order ≠ order.items.length then
      { result := Except.error ApiError.itemsNotFound, db := db,
        ops := [StoreOp.findMenu] }
    else
      match processItems db (resolvedMenuDocs db order) order.items with
      | (none, pops) =>
        { result := Except.error ApiError.invalidItemId, db := db,
          ops := StoreOp.findMenu :: pops }
      | (some (lis, subtotal), pops) =>
        let tax := round2 (subtotal * taxRate)
        let total := round2 (subtotal + tax)
        let doc : OrderDoc :=
          { customer_name := order.customer_name,
            customer_email := order.customer_email,
            customer_address := order.customer_address,
            items := lis,
            subtotal := round2 subtotal,
            tax := tax,
            total := total,
            status := "pending" }
        { result := Except.ok doc,
          db := { db with orders := db.orders ++ [doc] },
          ops := StoreOp.findMenu :: pops ++
                 [StoreOp.insertOrder, StoreOp.findOneOrder] }
  else
    { result := Except.error ApiError.invalidItemIdFormat, db := db, ops := [] }

/-- Embedding of the `category` query handling (`main.py` line 87): Python
`if category:` treats both absence and the empty string as no filter. -/
def truthyCategory : Option String → Option String
  | none => none
  | some c => if c == "" then none else some c

/-- Embedding of `list_menu` (`main.py` lines 82-90): all menu documents with
`available == true`, optionally filtered by exact category match. -/
def list_menu (db : DB) (category : Option String) : List MenuDoc :=
  db.menuitems.filter (fun d =>
    d.available == some true &&
    match truthyCategory category with
    | none => true
    | some c => d.category == some c)

/-- Embedding of `add_menu_item` (`main.py` lines 92-98): inserts an
arbitrary document verbatim into the `menuitem` collection. -/
def add_menu_item (db : DB) (doc : MenuDoc) : DB :=
  { db with menuitems := db.menuitems ++ [doc] }

/-- The default `limit` of the order-listing endpoint (`main.py` line 177). -/
def orderLimitDefault : Nat := 20

/-- Embedding of `list_orders` (`main.py` lines 176-181):
`find().sort("_id", -1).limit(limit)` — store-assigned ids grow with
insertion order, so the sort is the reverse of the insertion list. -/
def list_orders (db : DB) (limit : Nat) : List OrderDoc :=
  (db.orders.reverse).take limit

/-- Sum of the unrounded `price × quantity` products of a list of persisted
line items. -/
def unroundedSubtotal (lis : List LineItem) : ℚ :=
  (lis.map (fun li => li.price * (li.quantity : ℚ))).sum

/-- Marking a menu document unavailable (used to state that availability is
never consulted by the order path). -/
def markUnavailable (d : MenuDoc) : MenuDoc := { d with available := some false }

/-- A store in which every menu item is flagged unavailable. -/
def setAllUnavailable (db : DB) : DB :=
  { db with menuitems := db.menuitems.map markUnavailable }

/-! ### Lemmas about the pricing loop -/

@[simp]
theorem unroundedSubtotal_nil : unroundedSubtotal [] = 0 := rfl

@[simp]
theorem unroundedSubtotal_cons (li : LineItem) (lis : List LineItem) :
    unroundedSubtotal (li :: lis) =
      li.price * (li.quantity : ℚ) + unroundedSubtotal lis := by
  simp [unroundedSubtotal]

theorem mkLineItem_line_total (doc : MenuDoc) (oi : OrderItem) :
    (mkLineItem doc oi).1.line_total =
      round2 ((mkLineItem doc oi).1.price * ((mkLineItem doc oi).1.quantity : ℚ)) := rfl

theorem mkLineItem_snd (doc : MenuDoc) (oi : OrderItem) :
    (mkLineItem doc oi).2 =
      (mkLineItem doc oi).1.price * ((mkLineItem doc oi).1.quantity : ℚ) := rfl

/-- Whenever the pricing loop completes, every persisted line item carries the
2-place-rounded product as its `line_total`, and the accumulated subtotal is
the sum of the unrounded products. -/
theorem processItems_ok_spec (db : DB) (dict : List MenuDoc) :
    ∀ (items : List OrderItem) (lis : List LineItem) (sub : ℚ) (ops : List StoreOp),
      processItems db dict items = (some (lis, sub), ops) →
      (∀ li ∈ lis, li.line_total = round2 (li.price * (li.quantity : ℚ))) ∧
      sub = unroundedSubtotal lis := by
  intro items
  induction items with
  | nil =>
    intro lis sub ops h
    simp only [processItems, Prod.mk.injEq, Option.some.injEq] at h
    obtain ⟨⟨hlis, hsub⟩, _⟩ := h
    subst hlis; subst hsub
    simp
  | cons oi rest ih =>
    intro lis sub ops h
    rw [processItems] at h
    rcases hr : resolveDoc db dict oi with ⟨o1, ops1⟩
    rw [hr] at h
    cases o1 with
    | none => simp at h
    | some doc =>
      rcases hp : processItems db dict rest with ⟨o2, ops2⟩
      rw [hp] at h
      cases o2 with
      | none => simp at h
      | some p =>
        obtain ⟨lis2, sub2⟩ := p
        simp only [Prod.mk.injEq, Option.some.injEq] at h
        obtain ⟨⟨hlis, hsub⟩, _⟩ := h
        obtain ⟨hspec, hsum⟩ := ih lis2 sub2 ops2 hp
        subst hlis; subst hsub
        constructor
        · intro li hli
          rcases List.mem_cons.mp hli with hhead | htail
          · subst hhead; exact mkLineItem_line_total doc oi
          · exact hspec li htail
        · rw [unroundedSubtotal_cons, mkLineItem_snd, hsum]

/-- The pricing loop only ever performs fallback menu reads. -/
theorem processItems_ops_findOne (db : DB) (dict : List MenuDoc) :
    ∀ (items : List OrderItem), ∀ op ∈ (processItems db dict items).2,
      op = StoreOp.findOneMenu := by
  intro items
  induction items with
  | nil => intro op hop; simp [processItems] at hop
  | cons oi rest ih =>
    intro op hop
    rw [processItems] at hop
    rcases hr : resolveDoc db dict oi with ⟨o1, ops1⟩
    rw [hr] at hop
    have hops1 : ∀ op ∈ ops1, op = StoreOp.findOneMenu := by
      intro op hmem
      rw [resolveDoc] at hr
      rcases hfind : dict.reverse.find? (fun d => d.id == oi.item_id) with _ | d <;>
        rw [hfind] at hr <;>
        obtain ⟨_, h2⟩ := Prod.mk.injEq .. ▸ hr <;> subst h2
      · simp at hmem; exact hmem
      · simp at hmem
    cases o1 with
    | none => exact hops1 op hop
    | some doc =>
      rcases hp : processItems db dict rest with ⟨o2, ops2⟩
      rw [hp] at hop
      have hops2 : ∀ op ∈ ops2, op = StoreOp.findOneMenu := by
        intro op hmem; exact ih op (by rw [hp]; exact hmem)
      cases o2 with
      | none =>
        simp only [List.mem_append] at hop
        rcases hop with h | h
        · exact hops1 op h
        · exact hops2 op h
      | some p =>
        obtain ⟨lis2, sub2⟩ := p
        simp only [List.mem_append] at hop
        rcases hop with h | h
        · exact hops1 op h
        · exact hops2 op h

/-! ### Lemmas about the order-creation pipeline as a whole -/

/-- Everything a successful `create_order` response satisfies: each line item
carries the rounded product, the aggregates are the rounded functions of the
unrounded subtotal, status is "pending", and the customer fields are copied
from the request. -/
theorem createOrder_ok_spec (db : DB) (req : CreateOrder) (doc : OrderDoc)
    (h : (createOrder db req).result = Except.ok doc) :
    (∀ li ∈ doc.items, li.line_total = round2 (li.price * (li.quantity : ℚ))) ∧
    doc.subtotal = round2 (unroundedSubtotal doc.items) ∧
    doc.tax = round2 (unroundedSubtotal doc.items * taxRate) ∧
    doc.total = round2 (unroundedSubtotal doc.items + doc.tax) ∧
    doc.status = "pending" ∧
    doc.customer_name = req.customer_name ∧
    doc.customer_email = req.customer_email ∧
    doc.customer_address = req.customer_address := by
  rw [createOrder] at h
  by_cases hv : req.items.all (fun oi => isValidObjectId oi.item_id)
  · rw [if_pos hv] at h
    by_cases hc : distinctResolvedCount db req ≠ req.items.length
    · rw [if_pos hc] at h; simp at h
    · rw [if_neg hc] at h
      rcases hp : processItems db (resolvedMenuDocs db req) req.items with ⟨o, pops⟩
      rw [hp] at h
      cases o with
      | none => simp at h
      | some p =>
        obtain ⟨lis, sub⟩ := p
        simp only [Except.ok.injEq] at h
        obtain ⟨hspec, hsum⟩ := processItems_ok_spec db (resolvedMenuDocs db req)
          req.items lis sub pops hp
        subst h
        refine ⟨hspec, ?_, ?_, ?_, rfl, rfl, rfl, rfl⟩

        · simp only; rw [hsum]
        · simp only; rw [hsum]
        · simp only; rw [hsum]
  · rw [if_neg hv] at h; simp at h

/-- State/trace behaviour of `create_order`: the menu collection is never
written, the order collection gains exactly the returned document on success
and nothing otherwise, and the number of order inserts is one on success and
zero on failure. -/
theorem createOrder_state (db : DB) (req : CreateOrder) :
    (createOrder db req).db.menuitems = db.menuitems ∧
    (createOrder db req).db.orders =
      (match (createOrder db req).result with
       | Except.ok doc => db.orders ++ [doc]
       | Except.error _ => db.orders) ∧
    (createOrder db req).ops.count StoreOp.insertOrder =
      (match (createOrder db req).result with
       | Except.ok _ => 1
       | Except.error _ => 0) := by
  rw [createOrder]
  by_cases hv : req.items.all (fun oi => isValidObjectId oi.item_id)
  · rw [if_pos hv]
    by_cases hc : distinctResolvedCount db req ≠ req.items.length
    · rw [if_pos hc]; simp [List.count]
    · rw [if_neg hc]
      rcases hp : processItems db (resolvedMenuDocs db req) req.items with ⟨o, pops⟩
      have hpops : ∀ op ∈ pops, op = StoreOp.findOneMenu := by
        intro op hmem
        exact processItems_ops_findOne db (resolvedMenuDocs db req) req.items op
          (by rw [hp]; exact hmem)
      have hcount : pops.count StoreOp.insertOrder = 0 := by
        rw [List.count_eq_zero]
        intro hmem
        exact absurd (hpops _ hmem) (by simp)
      cases o with
      | none =>
        refine ⟨rfl, rfl, ?_⟩
        simp [List.count_cons, hcount]
      | some p =>
        obtain ⟨lis, sub⟩ := p
        refine ⟨rfl, rfl, ?_⟩
        simp [List.count_cons, List.count_append, hcount]
  · rw [if_neg hv]
    simp [List.count]

/-- Characterisation of the `ItemNotFound` rejection: it fires exactly when
every reference parses and the number of distinct resolved documents differs
from the number of requested line items (`len(menu_docs) != len(order.items)`,
`main.py` line 136). -/
theorem createOrder_itemsNotFound_iff (db : DB) (req : CreateOrder) :
    (createOrder db req).result = Except.error ApiError.itemsNotFound ↔
      (req.items.all (fun oi => isValidObjectId oi.item_id) = true ∧
       distinctResolvedCount db req ≠ req.items.length) := by
  rw [createOrder]
  by_cases hv : req.items.all (fun oi => isValidObjectId oi.item_id) = true
  · rw [if_pos hv]
    by_cases hc : distinctResolvedCount db req ≠ req.items.length
    · rw [if_pos hc]
      exact iff_of_true rfl ⟨hv, hc⟩
    · rw [if_neg hc]
      rcases hp : processItems db (resolvedMenuDocs db req) req.items with ⟨o, pops⟩
      cases o with
      | none => exact iff_of_false (by simp) (fun hco => hc hco.2)
      | some p =>
        obtain ⟨lis, sub⟩ := p
        exact iff_of_false (by simp) (fun hco => hc hco.2)
  · rw [if_neg hv]
    exact iff_of_false (by simp) (fun hco => hv hco.1)

/-- A malformed reference aborts `create_order` before any store interaction:
the result is the `InvalidReference` error, the store is untouched, and the
operation trace is empty. -/
theorem createOrder_invalidFormat (db : DB) (req : CreateOrder) (oi : OrderItem)
    (hmem : oi ∈ req.items) (hbad : isValidObjectId oi.item_id = false) :
    createOrder db req =
      { result := Except.error ApiError.invalidItemIdFormat, db := db, ops := [] } := by
  have hv : ¬ (req.items.all (fun oi => isValidObjectId oi.item_id) = true) := by
    rw [List.all_eq_true]
    intro hall
    have := hall oi hmem
    rw [hbad] at this
    exact Bool.false_ne_true this
  rw [createOrder, if_neg hv]

/-! ### Availability is never consulted by the order path -/

@[simp]
theorem markUnavailable_id (d : MenuDoc) : (markUnavailable d).id = d.id := rfl

@[simp]
theorem markUnavailable_name (d : MenuDoc) : (markUnavailable d).name = d.name := rfl

@[simp]
theorem markUnavailable_price (d : MenuDoc) : (markUnavailable d).price = d.price := rfl

theorem filter_map_mark (p : MenuDoc → Bool) (hp : ∀ d, p (markUnavailable d) = p d) :
    ∀ (l : List MenuDoc),
      (l.map markUnavailable).filter p = (l.filter p).map markUnavailable := by
  intro l
  induction l with
  | nil => rfl
  | cons d t ih =>
    simp only [List.map_cons, List.filter_cons, hp d]
    cases hpd : p d <;> simp [hpd, ih]

theorem find?_map_mark (p : MenuDoc → Bool) (hp : ∀ d, p (markUnavailable d) = p d) :
    ∀ (l : List MenuDoc),
      (l.map markUnavailable).find? p = (l.find? p).map markUnavailable := by
  intro l
  induction l with
  | nil => rfl
  | cons d t ih =>
    simp only [List.map_cons]
    cases hpd : p d with
    | true =>
      rw [List.find?_cons_of_pos _ (by rw [hp d]; exact hpd),
          List.find?_cons_of_pos _ hpd]
      rfl
    | false =>
      have hne : ¬ p d = true := by rw [hpd]; exact Bool.false_ne_true
      have hne2 : ¬ p (markUnavailable d) = true := by rw [hp d]; exact hne
      rw [List.find?_cons_of_neg _ hne2, List.find?_cons_of_neg _ hne]
      exact ih

theorem resolveDoc_mark (db : DB) (dict : List MenuDoc) (oi : OrderItem) :
    resolveDoc (setAllUnavailable db) (dict.map markUnavailable) oi =
      (((resolveDoc db dict oi).1).map markUnavailable, (resolveDoc db dict oi).2) := by
  have hrev : (dict.map markUnavailable).reverse = dict.reverse.map markUnavailable := by
    simp
  rw [resolveDoc, resolveDoc, hrev,
      find?_map_mark (fun d => d.id == oi.item_id) (fun d => rfl),
      show (setAllUnavailable db).menuitems = db.menuitems.map markUnavailable from rfl,
      find?_map_mark (fun d => d.id == canonicalId oi.item_id) (fun d => rfl)]
  cases dict.reverse.find? (fun d => d.id == oi.item_id) <;> rfl

theorem mkLineItem_mark (doc : MenuDoc) (oi : OrderItem) :
    mkLineItem (markUnavailable doc) oi = mkLineItem doc oi := rfl

theorem processItems_mark (db : DB) (dict : List MenuDoc) :
    ∀ (items : List OrderItem),
      processItems (setAllUnavailable db) (dict.map markUnavailable) items =
        processItems db dict items := by
  intro items
  induction items with
  | nil => rfl
  | cons oi rest ih =>
    rw [processItems, processItems, resolveDoc_mark, ih]
    rcases hr : resolveDoc db dict oi with ⟨o1, ops1⟩
    cases o1 <;> rfl

theorem resolvedMenuDocs_mark (db : DB) (req : CreateOrder) :
    resolvedMenuDocs (setAllUnavailable db) req =
      (resolvedMenuDocs db req).map markUnavailable := by
  rw [resolvedMenuDocs, resolvedMenuDocs]
  exact filter_map_mark (fun d => (requestMenuIds req).contains d.id) (fun d => rfl)
    db.menuitems

theorem distinctResolvedCount_mark (db : DB) (req : CreateOrder) :
    distinctResolvedCount (setAllUnavailable db) req = distinctResolvedCount db req := by
  rw [distinctResolvedCount, distinctResolvedCount, resolvedMenuDocs_mark, List.map_map]
  rfl

/-- Marking the whole menu unavailable changes nothing about the outcome of
`create_order`: the order path never reads the `available` flag. -/
theorem createOrder_mark (db : DB) (req : CreateOrder) :
    (createOrder (setAllUnavailable db) req).result = (createOrder db req).result := by
  rw [createOrder, createOrder]
  by_cases hv : req.items.all (fun oi => isValidObjectId oi.item_id) = true
  · rw [if_pos hv, if_pos hv, distinctResolvedCount_mark]
    by_cases hc : distinctResolvedCount db req ≠ req.items.length
    · rw [if_pos hc, if_pos hc]
    · rw [if_neg hc, if_neg hc, resolvedMenuDocs_mark, processItems_mark]
      rcases hp : processItems db (resolvedMenuDocs db req) req.items with ⟨o, pops⟩
      cases o with
      | none => rfl
      | some p => obtain ⟨lis, sub⟩ := p; rfl
  · rw [if_neg hv, if_neg hv]

/-- Everything the menu-listing endpoint returns is flagged available. -/
theorem list_menu_available (db : DB) (category : Option String) :
    ∀ d ∈ list_menu db category, d.available = some true := by
  intro d hd
  rw [list_menu] at hd
  have h := (List.mem_filter.mp hd).2
  have h1 := (Bool.and_eq_true _ _).mp h
  exact beq_iff_eq.mp h1.1

theorem round2_zero : round2 0 = 0 := by with_unfolding_all rfl

/-- A menu document whose stored form has no `price` key does not make order
creation fail: the price defaults to 0, the line total is 0, and the line is
included in the persisted order. -/
theorem createOrder_missing_price (d : MenuDoc) (q : Int) (n e a : String)
    (h1 : isValidObjectId d.id = true) (h2 : canonicalId d.id = d.id)
    (h3 : d.price = none) :
    (createOrder (add_menu_item { menuitems := [], orders := [] } d)
       { customer_name := n, customer_email := e, customer_address := a,
         items := [{ item_id := d.id, quantity := q }] }).result =
      Except.ok
        { customer_name := n, customer_email := e, customer_address := a,
          items := [{ item_id := d.id, name := d.name, price := 0,
                      quantity := q, line_total := 0 }],
          subtotal := 0, tax := 0, total := 0, status := "pending" } := by
  have hdb : add_menu_item { menuitems := [], orders := [] } d =
      { menuitems := [d], orders := [] } := rfl
  rw [hdb]
  set req : CreateOrder :=
    { customer_name := n, customer_email := e, customer_address := a,
      items := [{ item_id := d.id, quantity := q }] } with hreq
  have hv : req.items.all (fun oi => isValidObjectId oi.item_id) = true := by
    simp [hreq, h1]
  have hdocs : resolvedMenuDocs { menuitems := [d], orders := [] } req = [d] := by
    simp [resolvedMenuDocs, requestMenuIds, hreq, h2]
  have hcount : distinctResolvedCount { menuitems := [d], orders := [] } req = 1 := by
    simp [distinctResolvedCount, hdocs]
  have hc : ¬ (distinctResolvedCount { menuitems := [d], orders := [] } req ≠
      req.items.length) := by
    rw [hcount]; simp [hreq]
  have hres : resolveDoc { menuitems := [d], orders := [] } [d]
      { item_id := d.id, quantity := q } = (some d, []) := by
    rw [resolveDoc]
    simp
  have hp : processItems { menuitems := [d], orders := [] } [d] req.items =
      (some ([{ item_id := d.id, name := d.name, price := 0,
                quantity := q, line_total := 0 }], 0), []) := by
    show processItems { menuitems := [d], orders := [] } [d]
      [{ item_id := d.id, quantity := q }] = _
    rw [processItems, hres, processItems]
    simp [mkLineItem, h3, round2_zero]
  rw [createOrder, if_pos hv, if_neg hc, hdocs, hp]
  simp [round2_zero]

/-! ### Concrete store states and requests used as witnesses -/

def pid : String := "a0a0a0a0a0a0a0a0a0a0a0a0"

def lid : String := "b1b1b1b1b1b1b1b1b1b1b1b1"

def oddId : String := "d3d3d3d3d3d3d3d3d3d3d3d3"

/-- The Margherita Pizza fixture from the seed data. -/
def pizzaDoc : MenuDoc :=
  { id := pid, name := some "Margherita Pizza", price := some 11.99,
    category := some "Pizza", available := some true }

/-- The Lemonade fixture from the seed data. -/
def lemonadeDoc : MenuDoc :=
  { id := lid, name := some "Lemonade", price := some 3.49,
    category := some "Drinks", available := some true }

def dbPL : DB := { menuitems := [pizzaDoc, lemonadeDoc], orders := [] }

/-- The spec example request: 2 Margherita Pizza and 1 Lemonade. -/
def reqPL : CreateOrder :=
  { customer_name := "Ada", customer_email := "ada@example.com",
    customer_address := "1 Main St",
    items := [{ item_id := pid, quantity := 2 }, { item_id := lid, quantity := 1 }] }

/-- The order document the spec example request produces. -/
def docPL : OrderDoc :=
  { customer_name := "Ada", customer_email := "ada@example.com",
    customer_address := "1 Main St",
    items :=
      [{ item_id := pid, name := some "Margherita Pizza", price := 11.99,
         quantity := 2, line_total := 23.98 },
       { item_id := lid, name := some "Lemonade", price := 3.49,
         quantity := 1, line_total := 3.49 }],
    subtotal := 27.47, tax := 2.2, total := 29.67, status := "pending" }

/-- A follow-up request ordering one Lemonade. -/
def reqLem : CreateOrder :=
  { customer_name := "Bo", customer_email := "bo@example.com",
    customer_address := "2 Oak Ave",
    items := [{ item_id := lid, quantity := 1 }] }

/-- The order document the Lemonade-only request produces. -/
def docLem : OrderDoc :=
  { customer_name := "Bo", customer_email := "bo@example.com",
    customer_address := "2 Oak Ave",
    items := [{ item_id := lid, name := some "Lemonade", price := 3.49,
                quantity := 1, line_total := 3.49 }],
    subtotal := 3.49, tax := 0.28, total := 3.77, status := "pending" }

/-- An item whose price has more than two decimal places, so that its
unrounded product differs from its rounded one. -/
def oddDoc : MenuDoc :=
  { id := oddId, name := some "Odd Special", price := some 3.333,
    category := some "Specials", available := some true }

def dbOdd : DB := { menuitems := [oddDoc], orders := [] }

def reqOdd : CreateOrder :=
  { customer_name := "Cy", customer_email := "cy@example.com",
    customer_address := "3 Elm Rd",
    items := [{ item_id := oddId, quantity := 1 }] }

/-- The persisted order for the odd-priced item: note `line_total = 3.33`,
the rounded product, not the unrounded `3.333`. -/
def docOdd : OrderDoc :=
  { customer_name := "Cy", customer_email := "cy@example.com",
    customer_address := "3 Elm Rd",
    items := [{ item_id := oddId, name := some "Odd Special", price := 3.333,
                quantity := 1, line_total := 3.33 }],
    subtotal := 3.33, tax := 0.27, total := 3.6, status := "pending" }

/-- A request with quantity 0 — invalid per the declared schema, but accepted
by the request model the endpoint actually uses. -/
def reqZero : CreateOrder :=
  { customer_name := "Di", customer_email := "di@example.com",
    customer_address := "4 Fir Ln",
    items := [{ item_id := pid, quantity := 0 }] }

/-- The order the zero-quantity request produces. -/
def docZero : OrderDoc :=
  { customer_name := "Di", customer_email := "di@example.com",
    customer_address := "4 Fir Ln",
    items := [{ item_id := pid, name := some "Margherita Pizza", price := 11.99,
                quantity := 0, line_total := 0 }],
    subtotal := 0, tax := 0, total := 0, status := "pending" }

/-- A request naming the same existing item twice. -/
def reqDup : CreateOrder :=
  { customer_name := "Ed", customer_email := "ed@example.com",
    customer_address := "5 Gum Ct",
    items := [{ item_id := pid, quantity := 1 }, { item_id := pid, quantity := 1 }] }

/-- A request with a malformed (non-ObjectId) reference. -/
def reqBad : CreateOrder :=
  { customer_name := "Fi", customer_email := "fi@example.com",
    customer_address := "6 Hay Pl",
    items := [{ item_id := "zzz", quantity := 1 }] }

/-- A stored menu document with no `price` key at all. -/
def mystDoc : MenuDoc :=
  { id := "c2c2c2c2c2c2c2c2c2c2c2c2", name := some "Mystery Dish",
    price := none, category := some "Specials", available := some true }

/-! ### Claim theorems -/

/-- C1 (counterexample): the claim that the persisted `line_total` is the
unrounded product fails: for a 3.333-priced item ordered once, the persisted
line total is `3.33`, not the unrounded product `3.333`. -/
theorem claim1_counterexample :
    (createOrder dbOdd reqOdd).result = Except.ok docOdd ∧
    docOdd.items.map (fun li => li.line_total) = [333/100] ∧
    docOdd.items.map (fun li => li.price * (li.quantity : ℚ)) = [3333/1000] ∧
    ((333 : ℚ)/100) ≠ 3333/1000 := by
  refine ⟨by with_unfolding_all rfl, by with_unfolding_all rfl,
    by with_unfolding_all rfl, by with_unfolding_all decide⟩

/-- C1 (amended): in every successfully created order, the persisted
`line_total` of each line item is the product `price × quantity` rounded to
2 decimal places, while the persisted subtotal is the rounded sum of the
unrounded products (the accumulator adds unrounded line totals). -/
theorem claim1_line_total_rounded (db : DB) (req : CreateOrder) (doc : OrderDoc)
    (h : (createOrder db req).result = Except.ok doc) :
    (∀ li ∈ doc.items, li.line_total = round2 (li.price * (li.quantity : ℚ))) ∧
    doc.subtotal = round2 (unroundedSubtotal doc.items) :=
  ⟨(createOrder_ok_spec db req doc h).1, (createOrder_ok_spec db req doc h).2.1⟩

/-- C1 (witness): the amended statement instantiated at the odd-priced
store. -/
theorem claim1_witness :
    (createOrder dbOdd reqOdd).result = Except.ok docOdd ∧
    (∀ li ∈ docOdd.items, li.line_total = round2 (li.price * (li.quantity : ℚ))) ∧
    docOdd.subtotal = round2 (unroundedSubtotal docOdd.items) := by
  have h : (createOrder dbOdd reqOdd).result = Except.ok docOdd := by
    with_unfolding_all rfl
  exact ⟨h, (claim1_line_total_rounded dbOdd reqOdd docOdd h).1,
    (claim1_line_total_rounded dbOdd reqOdd docOdd h).2⟩

/-- C2 (code bug): the request model used by the order endpoint does not
enforce the `quantity ≥ 1` bound declared in `schemas.py`: a request with
quantity 0 is accepted and an order with a zero-quantity line item is
persisted. -/
theorem claim2_zero_quantity_accepted :
    schemasQuantityValid { item_id := pid, quantity := 0 } = false ∧
    (createOrder dbPL reqZero).result = Except.ok docZero ∧
    docZero.items.map (fun li => li.quantity) = [0] := by
  refine ⟨by decide, by with_unfolding_all rfl, by with_unfolding_all rfl⟩

/-- C3 (counterexample): a request that references the same existing item in
two line items resolves every reference (the distinct resolved ids equal the
distinct requested ids), yet `create_order` rejects it with `ItemNotFound` —
refuting the claim that duplicate references to an existing item pass the
check. -/
theorem claim3_counterexample :
    (createOrder dbPL reqDup).result = Except.error ApiError.itemsNotFound ∧
    distinctResolvedCount dbPL reqDup = (requestMenuIds reqDup).dedup.length := by
  refine ⟨by with_unfolding_all rfl, by with_unfolding_all rfl⟩

/-- C3 (amended): order creation fails with `ItemNotFound` exactly when every
reference parses and the number of distinct resolved documents differs from
the number of requested line items (not the number of distinct references):
duplicate references to one existing item are therefore rejected. -/
theorem claim3_itemsNotFound_iff (db : DB) (req : CreateOrder) :
    (createOrder db req).result = Except.error ApiError.itemsNotFound ↔
      (req.items.all (fun oi => isValidObjectId oi.item_id) = true ∧
       distinctResolvedCount db req ≠ req.items.length) :=
  createOrder_itemsNotFound_iff db req

/-- C3 (witness): the characterisation applied at the duplicate-reference
request. -/
theorem claim3_witness :
    (createOrder dbPL reqDup).result = Except.error ApiError.itemsNotFound :=
  (claim3_itemsNotFound_iff dbPL reqDup).mpr
    ⟨by decide, by with_unfolding_all decide⟩

/-- C4 (code bug): the optional `notes` field of the request never reaches
the persisted order: `create_order` behaves identically whatever the notes
are, because the assembled order document has no notes key at all. -/
theorem claim4_notes_ignored (db : DB) (req : CreateOrder) (s : String) :
    createOrder db { req with notes := some s } =
      createOrder db { req with notes := none } := rfl

/-- C5: `create_order` never writes the menu collection, appends exactly the
returned document to the order collection on success and leaves it unchanged
on failure, and its trace holds exactly one order-insert on success and zero
on every failure path. -/
theorem claim5_write_discipline (db : DB) (req : CreateOrder) :
    (createOrder db req).db.menuitems = db.menuitems ∧
    (createOrder db req).db.orders =
      (match (createOrder db req).result with
       | Except.ok doc => db.orders ++ [doc]
       | Except.error _ => db.orders) ∧
    (createOrder db req).ops.count StoreOp.insertOrder =
      (match (createOrder db req).result with
       | Except.ok _ => 1
       | Except.error _ => 0) :=
  createOrder_state db req

/-- C6: for every successfully created order, `tax` is the unrounded
subtotal times the fixed 8% rate rounded to 2 places, and `total` is the
unrounded subtotal plus tax, rounded to 2 places. -/
theorem claim6_tax_total (db : DB) (req : CreateOrder) (doc : OrderDoc)
    (h : (createOrder db req).result = Except.ok doc) :
    doc.tax = round2 (unroundedSubtotal doc.items * taxRate) ∧
    doc.total = round2 (unroundedSubtotal doc.items + doc.tax) :=
  ⟨(createOrder_ok_spec db req doc h).2.2.1,
   (createOrder_ok_spec db req doc h).2.2.2.1⟩

/-- C6 (witness): the spec example — 2 × 11.99 and 1 × 3.49 give subtotal
27.47, tax 2.20 and total 29.67. -/
theorem claim6_witness :
    (createOrder dbPL reqPL).result = Except.ok docPL ∧
    docPL.subtotal = 27.47 ∧ docPL.tax = 2.2 ∧ docPL.total = 29.67 ∧
    docPL.tax = round2 (unroundedSubtotal docPL.items * taxRate) ∧
    docPL.total = round2 (unroundedSubtotal docPL.items + docPL.tax) := by
  have h : (createOrder dbPL reqPL).result = Except.ok docPL := by
    with_unfolding_all rfl
  exact ⟨h, rfl, rfl, rfl, (claim6_tax_total dbPL reqPL docPL h).1,
    (claim6_tax_total dbPL reqPL docPL h).2⟩

/-- C7: a malformed item reference makes `create_order` fail with the
invalid-format error while the store state is untouched and the operation
trace is empty — the store is never contacted. -/
theorem claim7_invalid_reference (db : DB) (req : CreateOrder) (oi : OrderItem)
    (hmem : oi ∈ req.items) (hbad : isValidObjectId oi.item_id = false) :
    createOrder db req =
      { result := Except.error ApiError.invalidItemIdFormat, db := db, ops := [] } :=
  createOrder_invalidFormat db req oi hmem hbad

/-- C7 (witness): the malformed-reference request aborts with no store
operation. -/
theorem claim7_witness :
    ({ item_id := "zzz", quantity := 1 } : OrderItem) ∈ reqBad.items ∧
    isValidObjectId "zzz" = false ∧
    createOrder dbPL reqBad =
      { result := Except.error ApiError.invalidItemIdFormat, db := dbPL, ops := [] } :=
  ⟨by decide, by decide,
   claim7_invalid_reference dbPL reqBad { item_id := "zzz", quantity := 1 }
     (by decide) (by decide)⟩

/-- C8: availability is not enforced on the order path — flagging the whole
menu unavailable does not change the outcome of any order creation — while
the menu-listing operation only returns items flagged available. -/
theorem claim8_availability_not_enforced (db : DB) (req : CreateOrder)
    (category : Option String) :
    (createOrder (setAllUnavailable db) req).result = (createOrder db req).result ∧
    (∀ d ∈ list_menu db category, d.available = some true) :=
  ⟨createOrder_mark db req, list_menu_available db category⟩

/-- C8 (witness): the spec example order succeeds even when every menu item
is flagged unavailable. -/
theorem claim8_witness :
    (createOrder (setAllUnavailable dbPL) reqPL).result =
      (createOrder dbPL reqPL).result ∧
    (∀ d ∈ list_menu dbPL (some "Pizza"), d.available = some true) ∧
    (createOrder (setAllUnavailable dbPL) reqPL).result = Except.ok docPL := by
  have h := claim8_availability_not_enforced dbPL reqPL (some "Pizza")
  exact ⟨h.1, h.2, h.1.trans (by with_unfolding_all rfl)⟩

/-- C9: after two successful order creations, listing with limit 1 returns
exactly the most recently created order; the default limit is 20. -/
theorem claim9_listing_most_recent (db : DB) (req1 req2 : CreateOrder)
    (doc1 doc2 : OrderDoc)
    (h1 : (createOrder db req1).result = Except.ok doc1)
    (h2 : (createOrder (createOrder db req1).db req2).result = Except.ok doc2) :
    list_orders (createOrder (createOrder db req1).db req2).db 1 = [doc2] ∧
    orderLimitDefault = 20 := by
  have s1 := (createOrder_state db req1).2.1
  rw [h1] at s1
  have s2 := (createOrder_state (createOrder db req1).db req2).2.1
  rw [h2] at s2
  refine ⟨?_, rfl⟩
  rw [list_orders, s2, s1]
  simp

/-- C9 (witness): creating the pizza-and-lemonade order and then the
lemonade-only order, listing with limit 1 yields just the second order. -/
theorem claim9_witness :
    list_orders (createOrder (createOrder dbPL reqPL).db reqLem).db 1 = [docLem] ∧
    orderLimitDefault = 20 := by
  have h1 : (createOrder dbPL reqPL).result = Except.ok docPL := by
    with_unfolding_all rfl
  have h2 : (createOrder (createOrder dbPL reqPL).db reqLem).result =
      Except.ok docLem := by
    with_unfolding_all rfl
  exact claim9_listing_most_recent dbPL reqPL reqLem docPL docLem h1 h2

/-- C10: a resolved menu document with no price field does not make order
creation fail: the price defaults to 0, the line total is 0 and the line item
is included in the persisted order. -/
theorem claim10_missing_price_zero (d : MenuDoc) (q : Int) (n e a : String)
    (h1 : isValidObjectId d.id = true) (h2 : canonicalId d.id = d.id)
    (h3 : d.price = none) :
    (createOrder (add_menu_item { menuitems := [], orders := [] } d)
       { customer_name := n, customer_email := e, customer_address := a,
         items := [{ item_id := d.id, quantity := q }] }).result =
      Except.ok
        { customer_name := n, customer_email := e, customer_address := a,
          items := [{ item_id := d.id, name := d.name, price := 0,
                      quantity := q, line_total := 0 }],
          subtotal := 0, tax := 0, total := 0, status := "pending" } :=
  createOrder_missing_price d q n e a h1 h2 h3

/-- C10 (witness): ordering three of a price-less stored document succeeds
with all-zero monetary fields. -/
theorem claim10_witness :
    isValidObjectId mystDoc.id = true ∧ canonicalId mystDoc.id = mystDoc.id ∧
    mystDoc.price = none ∧
    (createOrder (add_menu_item { menuitems := [], orders := [] } mystDoc)
       { customer_name := "Cal", customer_email := "cal@example.com",
         customer_address := "9 Side St",
         items := [{ item_id := mystDoc.id, quantity := 3 }] }).result =
      Except.ok
        { customer_name := "Cal", customer_email := "cal@example.com",
          customer_address := "9 Side St",
          items := [{ item_id := mystDoc.id, name := mystDoc.name, price := 0,
                      quantity := 3, line_total := 0 }],
          subtotal := 0, tax := 0, total := 0, status := "pending" } :=
  ⟨by decide, by decide, rfl,
   claim10_missing_price_zero mystDoc 3 "Cal" "cal@example.com" "9 Side St"
     (by decide) (by decide) rfl⟩

end Restaurant
